import Mathlib

/-!
Verification development for the `france-insider-trading` repository.

The Python sources under `src/analysis/` are shallowly embedded below:

* `scrapping.py` - the page fetcher and trade-record extractor
  (`scrape_insider_trades`), modelled over an explicit HTML-row data type;
* `score.py` - the analysis entry point (`analyze_insider_opportunities`)
  and its derived tables, modelled over an explicit record table;
* `vizualisation.py` - the net effect of the two chart builders on the
  DataFrame handed to them;
* `ticker.py` - the price-history helpers, with CPython keyword-argument
  binding made explicit.

Python floats are modelled as exact rationals (no claim here depends on
binary rounding); machine wall-clock timestamps are threaded as explicit
parameters; Python `None` becomes `Option.none`; an exception that a
caller catches becomes an `Except` value.
-/

namespace FranceInsider

/-! ## Exact rationals

Python floats are modelled as exact rationals.  The type below is kept
kernel-computable throughout (fuel-based gcd, structural arithmetic), so
that every concrete claim evaluates by `decide`.  Values built by the
operations here are always normalised (coprime numerator and denominator,
positive denominator), so structural equality is value equality for them. -/

/-- Euclidean gcd with explicit fuel (structural recursion on the fuel;
`a + b + 1` steps always suffice). -/
def gcdFuel : Nat → Nat → Nat → Nat
  | 0, a, b => a + b
  | _ + 1, 0, b => b
  | fuel + 1, a + 1, b => gcdFuel fuel (b % (a + 1)) (a + 1)

/-- Gcd of two naturals via `gcdFuel`. -/
def natGcd (a b : Nat) : Nat :=
  gcdFuel (a + b + 1) a b

/-- An exact rational: numerator and positive denominator. -/
structure MyRat where
  num : Int
  den : Nat
deriving DecidableEq

/-- Normalised rational from an integer numerator and denominator: reduce
by the gcd and make the denominator positive.  A zero denominator gives 0
(never produced by the embedded code on the inputs the claims quantify
over; the convention only keeps the functions total). -/
def MyRat.normInt (n d : Int) : MyRat :=
  if d = 0 then ⟨0, 1⟩
  else
    let n' : Int := if d < 0 then -n else n
    let d' : Nat := d.natAbs
    let g : Nat := natGcd n'.natAbs d'
    ⟨n' / (g : Int), d' / g⟩

instance : OfNat MyRat n := ⟨⟨(n : Int), 1⟩⟩

instance : NatCast MyRat := ⟨fun n => ⟨(n : Int), 1⟩⟩

instance : IntCast MyRat := ⟨fun n => ⟨n, 1⟩⟩

instance : OfScientific MyRat :=
  ⟨fun m b e =>
    if b then MyRat.normInt (m : Int) ((10 ^ e : Nat) : Int)
    else ⟨((m * 10 ^ e : Nat) : Int), 1⟩⟩

instance : Neg MyRat := ⟨fun a => ⟨-a.num, a.den⟩⟩

instance : Add MyRat :=
  ⟨fun a b => MyRat.normInt (a.num * (b.den : Int) + b.num * (a.den : Int))
    ((a.den * b.den : Nat) : Int)⟩

instance : Sub MyRat :=
  ⟨fun a b => MyRat.normInt (a.num * (b.den : Int) - b.num * (a.den : Int))
    ((a.den * b.den : Nat) : Int)⟩

instance : Mul MyRat :=
  ⟨fun a b => MyRat.normInt (a.num * b.num) ((a.den * b.den : Nat) : Int)⟩

instance : Div MyRat :=
  ⟨fun a b => MyRat.normInt (a.num * (b.den : Int)) ((a.den : Int) * b.num)⟩

instance : LE MyRat := ⟨fun a b => a.num * (b.den : Int) ≤ b.num * (a.den : Int)⟩

instance : LT MyRat := ⟨fun a b => a.num * (b.den : Int) < b.num * (a.den : Int)⟩

instance (a b : MyRat) : Decidable (a ≤ b) :=
  inferInstanceAs (Decidable (a.num * (b.den : Int) ≤ b.num * (a.den : Int)))

instance (a b : MyRat) : Decidable (a < b) :=
  inferInstanceAs (Decidable (a.num * (b.den : Int) < b.num * (a.den : Int)))

/-- Floor of a nonnegative rational, as a natural (used for quantile
positions, which are nonnegative). -/
def MyRat.floorNat (a : MyRat) : Nat :=
  a.num.toNat / a.den

/-- Rendering used only where the embedded code stringifies a number. -/
def MyRat.render (a : MyRat) : String :=
  toString a.num ++ "/" ++ toString a.den

/-- Generic insertion step for the sorts below. -/
def insertBy {α : Type} (le : α → α → Bool) (x : α) : List α → List α
  | [] => [x]
  | y :: ys => if le x y then x :: y :: ys else y :: insertBy le x ys

/-- Insertion sort by the given comparison (a permutation of the pandas
`sort_values` order; every claim about a sorted table is membership-only). -/
def sortBy {α : Type} (le : α → α → Bool) : List α → List α
  | [] => []
  | x :: xs => insertBy le x (sortBy le xs)

/-! ## Python string primitives

These model the CPython string/regex operations the sources use:
`str.replace` (all non-overlapping occurrences, left to right),
`str.startswith`, `str.strip`, `re.sub` with a character class, `int()`
and `float()` on decimal literals (underscores, `inf` and `nan` are not
modelled: none appear in the scraped inputs the claims are about), and
`str.lower` / substring containment for ASCII text.
-/

/-- Characters matched by Python `\s` (and stripped by `str.strip`):
ASCII whitespace plus vertical tab, form feed, no-break space and narrow
no-break space, the Unicode spaces that occur in French-formatted numbers. -/
def isPySpace (c : Char) : Bool :=
  c.isWhitespace || c = Char.ofNat 11 || c = Char.ofNat 12 ||
    c = Char.ofNat 0xa0 || c = Char.ofNat 0x202f

/-- Scan for CPython `str.replace`.  The counter holds how many already
matched pattern characters remain to be dropped; in scan mode (counter 0)
a pattern match emits the replacement and enters drop mode for the rest of
the pattern. -/
def replaceAllAux (pat rep : List Char) : Nat → List Char → List Char
  | _, [] => []
  | 0, c :: rest =>
    if pat ≠ [] ∧ pat.isPrefixOf (c :: rest) then
      rep ++ replaceAllAux pat rep (pat.length - 1) rest
    else
      c :: replaceAllAux pat rep 0 rest
  | k + 1, _ :: rest => replaceAllAux pat rep k rest

/-- Model of CPython `str.replace`: replaces every non-overlapping
occurrence of `pat` from the left.  The empty-pattern case (where CPython
interleaves the replacement) is never exercised by the sources and is
modelled as the identity. -/
def replaceAll (pat rep cs : List Char) : List Char :=
  replaceAllAux pat rep 0 cs

/-- Model of `s.replace(pat, rep)`. -/
def pyReplace (s pat rep : String) : String :=
  (replaceAll pat.toList rep.toList s.toList).asString

/-- Model of `s.startswith(pre)`. -/
def pyStartswith (s pre : String) : Bool :=
  pre.toList.isPrefixOf s.toList

/-- Model of `s.strip()` with no argument. -/
def pyStrip (s : String) : String :=
  (((s.toList.dropWhile isPySpace).reverse.dropWhile isPySpace).reverse).asString

/-- Numeric value of a digit string (caller guarantees digits only). -/
def digitsToNat (cs : List Char) : Nat :=
  cs.foldl (fun a c => a * 10 + (c.toNat - 48)) 0

/-- Model of CPython `int(s)`: optional surrounding whitespace, optional
sign, then a nonempty run of decimal digits. -/
def parseInt? (s : String) : Option Int :=
  let cs := (pyStrip s).toList
  let p : Bool × List Char :=
    match cs with
    | '+' :: t => (false, t)
    | '-' :: t => (true, t)
    | t => (false, t)
  if p.2 ≠ [] ∧ p.2.all Char.isDigit then
    some (if p.1 then -(digitsToNat p.2 : Int) else (digitsToNat p.2 : Int))
  else none

/-- Ten to a natural power, as a rational. -/
def pow10 (n : Nat) : MyRat :=
  ⟨((10 ^ n : Nat) : Int), 1⟩

/-- Model of CPython `float(s)` on decimal literals: optional surrounding
whitespace, optional sign, digits with an optional decimal point, and an
optional decimal exponent. -/
def parseFloat? (s : String) : Option MyRat :=
  let cs := (pyStrip s).toList
  let p : MyRat × List Char :=
    match cs with
    | '+' :: t => (1, t)
    | '-' :: t => (-1, t)
    | t => (1, t)
  let m := p.2.span (fun c => !(c = 'e' || c = 'E'))
  let ipRest := m.1.span Char.isDigit
  let fpOk : List Char × Bool :=
    match ipRest.2 with
    | [] => ([], true)
    | '.' :: t => (t, t.all Char.isDigit)
    | _ => ([], false)
  if fpOk.2 = false ∨ (ipRest.1 = [] ∧ fpOk.1 = []) then none
  else
    let base : MyRat := (digitsToNat ipRest.1 : MyRat) + (digitsToNat fpOk.1 : MyRat) / pow10 fpOk.1.length
    let withExp : Option MyRat :=
      match m.2 with
      | [] => some base
      | _ :: et =>
        let ep : Bool × List Char :=
          match et with
          | '+' :: t => (false, t)
          | '-' :: t => (true, t)
          | t => (false, t)
        if ep.2 ≠ [] ∧ ep.2.all Char.isDigit then
          some (if ep.1 then base / pow10 (digitsToNat ep.2) else base * pow10 (digitsToNat ep.2))
        else none
    withExp.map (fun v => p.1 * v)

/-- ASCII lowercasing, the model of `str.lower` (accented capitals are left
unchanged; every keyword the sources compare against is plain ASCII or
already lowercase). -/
def asciiLower (s : String) : String :=
  (s.toList.map Char.toLower).asString

/-- Auxiliary scan for substring containment. -/
def containsSubAux (p : List Char) : List Char → Bool
  | [] => p.isEmpty
  | c :: rest => p.isPrefixOf (c :: rest) || containsSubAux p rest

/-- Substring containment, the model of `pandas.Series.str.contains` on a
pattern without regex metacharacters. -/
def containsSub (pat : String) (s : String) : Bool :=
  containsSubAux pat.toList s.toList

/-! ## Record extractor (`scrapping.py`, `scrape_insider_trades`)

The HTML a page parses into is embedded at the granularity the code
inspects it: a result-table row has a class list (the `get` of the class
attribute), a cell list (`find_all` over td cells), and - for detail rows - an optional
nested table given as its rows, each a list of cell texts.  Cell texts
stand for `get_text(strip=True)` results; a cell may carry the anchor that
a `find` over anchors would return, with `href` defaulting to the empty
string exactly as the `get` with empty default does. -/

/-- An `<a>` anchor: its stripped text and its `href` attribute. -/
structure Link where
  text : String
  href : String
deriving DecidableEq

/-- A `<td>` cell: its stripped text and the first anchor inside it. -/
structure Cell where
  text : String
  link : Option Link := none
deriving DecidableEq

/-- A `<tr>` of the main results table.  `nested` is the nested table of a
detail row (the `find` over nested tables), given as the cell texts of each of
its rows. -/
structure Row where
  classes : List String := []
  cells : List Cell := []
  nested : Option (List (List String)) := none
deriving DecidableEq

/-- The `detail_info` dictionary of the extractor, flattened: the code
reads it only through `detail_info.get(k)`, under which a key stored with
value `None` (a failed numeric parse) and an absent key coincide. -/
structure DetailInfo where
  author : Option String := none
  operation_date : Option String := none
  quantity : Option Int := none
  price_eur : Option MyRat := none
  comments : Option String := none
deriving DecidableEq

/-- One trade record, the dictionary built at lines 176-191 of
`scrapping.py`.  The wall-clock `scraped_at` string is omitted: no claim
mentions it and it carries no information about the page. -/
structure TradeRecord where
  company : Option String
  company_href : String
  declaration_date : String
  operation : String
  instrument : String
  amount_from_main : Option MyRat
  author : Option String
  operation_date : Option String
  quantity : Option Int
  price_eur : Option MyRat
  total_value_eur : Option MyRat
  comments : Option String
  scraped_page : Nat
deriving DecidableEq

/-- Headline-amount cleaning (line 101): drop the euro sign and whitespace
with `re.sub`, then turn the decimal comma into a point. -/
def cleanAmount (s : String) : String :=
  pyReplace ((s.toList.filter (fun c => !(c = '€' || isPySpace c))).asString) "," "."

/-- The headline-amount parser (lines 99-105): the empty string stays
`None` (the `if amount_str:` guard), and a cleaned string that `float()`
rejects stays `None` (the `try`/`except ValueError: pass`). -/
def parseAmount (s : String) : Option MyRat :=
  if s = "" then none else parseFloat? (cleanAmount s)

/-- Processing of one labelled cell of the second nested detail row
(lines 129-154).  A later cell with the same label overwrites the earlier
value, as the dictionary assignment does. -/
def updDetail (d : DetailInfo) (t : String) : DetailInfo :=
  if pyStartswith t "Date d\x27opération:" then
    { d with operation_date := some (pyStrip (pyReplace t "Date d\x27opération:" "")) }
  else if pyStartswith t "Quantité:" then
    let qstr := pyStrip (pyReplace t "Quantité:" "")
    let qclean := (qstr.toList.filter (fun c => !isPySpace c)).asString
    { d with quantity := parseInt? qclean }
  else if pyStartswith t "Prix:" then
    let pstr := pyStrip (pyReplace (pyReplace t "Prix:" "") "€" "")
    let pclean := pyReplace pstr "," "."
    { d with price_eur := parseFloat? pclean }
  else d

/-- Extraction of the detail dictionary from a detail row (lines 110-163):
row 0 of the nested table gives the author (with the literal prefix
stripped when present), row 1 the labelled cells, row 2 the optional
comment (empty normalised to `None`).  A detail row without a nested table
leaves the dictionary empty.  The first `<td>` of rows 0 and 2 is modelled
by the head of the cell-text list. -/
def parseDetail (detailRow : Row) : DetailInfo :=
  match detailRow.nested with
  | none => {}
  | some trs =>
    let d0 : DetailInfo := {}
    let d1 : DetailInfo :=
      match trs.head? with
      | some tds =>
        match tds.head? with
        | some t =>
          let a := if pyStartswith t "Auteur: " then pyReplace t "Auteur: " "" else t
          { d0 with author := some a }
        | none => d0
      | none => d0
    let d2 : DetailInfo :=
      match (trs.drop 1).head? with
      | some tds => tds.foldl updDetail d1
      | none => d1
    match (trs.drop 2).head? with
    | some tds =>
      match tds.head? with
      | some t =>
        if pyStartswith t "Commentaires:" then
          let c := pyStrip (pyReplace t "Commentaires:" "")
          { d2 with comments := if c = "" then none else some c }
        else d2
      | none => d2
    | none => d2

/-- The `total_value` computation of lines 170-173, with the Python
truthiness of the quantity and price entries of the detail dictionary
made explicit: `None` and zero both skip the multiplication. -/
def totalValue (d : DetailInfo) : Option MyRat :=
  match d.quantity, d.price_eur with
  | some q, some p => if q ≠ 0 ∧ p ≠ 0 then some ((q : MyRat) * p) else none
  | _, _ => none

/-- Assembly of one candidate record from a summary row and the detail
dictionary (lines 88-105 and 176-191). -/
def mkRecord (page : Nat) (row : Row) (d : DetailInfo) : TradeRecord :=
  let c0 := row.cells.getD 0 { text := "" }
  { company := c0.link.map (fun l => l.text)
    company_href := match c0.link with | some l => l.href | none => ""
    declaration_date := (row.cells.getD 1 { text := "" }).text
    operation := (row.cells.getD 2 { text := "" }).text
    instrument := (row.cells.getD 3 { text := "" }).text
    amount_from_main := parseAmount (row.cells.getD 4 { text := "" }).text
    author := d.author
    operation_date := d.operation_date
    quantity := d.quantity
    price_eur := d.price_eur
    total_value_eur := totalValue d
    comments := d.comments
    scraped_page := page }

/-- Python truthiness of the optional strings in the retention guard:
`None` and the empty string are falsy. -/
def truthyStr : Option String → Bool
  | none => false
  | some s => s ≠ ""

/-- The retention guard of lines 193-195: `if company and author` under
Python truthiness, reading the author entry of the detail dictionary. -/
def keepRecord (r : TradeRecord) : Bool :=
  truthyStr r.company && truthyStr r.author

/-- The cursor loop of lines 73-195, producing the candidate records in
row order: detail-classed rows met at the top of the loop are skipped, rows
with fewer than 6 cells are skipped, and a summary row is paired with the
immediately following row exactly when that row carries the
`dtlinsider` class, in which case the cursor advances by two. -/
def extractRows (page : Nat) : List Row → List TradeRecord
  | [] => []
  | [row] =>
    if "dtlinsider" ∈ row.classes then []
    else if row.cells.length < 6 then []
    else [mkRecord page row {}]
  | row :: next :: rest2 =>
    if "dtlinsider" ∈ row.classes then extractRows page (next :: rest2)
    else if row.cells.length < 6 then extractRows page (next :: rest2)
    else if "dtlinsider" ∈ next.classes then
      mkRecord page row (parseDetail next) :: extractRows page rest2
    else
      mkRecord page row {} :: extractRows page (next :: rest2)

/-- The records a page contributes to `all_trades`: each candidate is
appended exactly when the retention guard holds, which is the filter of the
candidate list. -/
def pageRecords (page : Nat) (rows : List Row) : List TradeRecord :=
  (extractRows page rows).filter keepRecord

/-! ## Fetcher and page loop (`scrapping.py`, lines 34-202)

The network is embedded as, per page, the list of outcomes of the (up to
three) `requests.get` attempts.  A successful attempt binds the Python
variable `response` and breaks out; an HTTP error response binds
`response` and then raises from `raise_for_status`; a transport error
raises inside `requests.get` and leaves `response` untouched.  Crucially,
`response` is a plain loop-carried variable: when every attempt for a page
fails, the `continue` on the last attempt only ends the inner `for`, and
the code falls through to parse whatever `response` still holds - the
previous page on success there, or nothing at all on the first page
(a `NameError` that the outer `except` absorbs). -/

/-- What one page of the site looks like once parsed: either the
`tabQuotes` table body with its rows, or no usable table (the
`tabQuotes`-missing and `tbody`-missing branches both print and
`continue`, and are folded together). -/
structure PageContent where
  table : Option (List Row)
deriving DecidableEq

/-- Outcome of one `requests.get` attempt for a page. -/
inductive AttemptOutcome where
  /-- Successful response: `response` is bound and the retry loop breaks. -/
  | ok (c : PageContent)
  /-- Non-2xx response: `response` is bound, then `raise_for_status` raises. -/
  | httpError (c : PageContent)
  /-- Timeout or connection error: `requests.get` raises, `response` keeps
  its previous value. -/
  | transportError
deriving DecidableEq

/-- The retry loop of lines 45-54 over the attempt list of one page.
Returns the value of `response` after the loop, whether the loop broke on
a success, and the list of `time.sleep` durations performed between
attempts (a `sleep(2)` runs after every failure except the last attempt,
whose `continue` ends the loop). -/
def runAttempts : List AttemptOutcome → Option PageContent → Option PageContent × Bool × List Nat
  | [], resp => (resp, false, [])
  | a :: rest, resp =>
    match a with
    | .ok c => (some c, true, [])
    | .httpError c =>
      match rest with
      | [] => (some c, false, [])
      | _ :: _ =>
        let r := runAttempts rest (some c)
        (r.1, r.2.1, 2 :: r.2.2)
    | .transportError =>
      match rest with
      | [] => (resp, false, [])
      | _ :: _ =>
        let r := runAttempts rest resp
        (r.1, r.2.1, 2 :: r.2.2)

/-- Processing of one page index inside the outer `try` (lines 43-202):
run the retry loop, then parse whatever `response` now holds.  An unbound
`response` (no page ever fetched) raises a `NameError` that the outer
`except` turns into zero records for the page; a missing table yields zero
records; otherwise the row walk runs on the - possibly stale - content. -/
def processPage (page : Nat) (attempts : List AttemptOutcome) (resp : Option PageContent) :
    List TradeRecord × Option PageContent :=
  let r := runAttempts attempts resp
  match r.1 with
  | none => ([], r.1)
  | some content =>
    match content.table with
    | none => ([], r.1)
    | some rows => (pageRecords page rows, r.1)

/-- The page loop of lines 34-202 over the given page indices, carrying
the `response` variable between iterations.  `net` gives the attempt
outcomes the network produces for each page index. -/
def scrapePages (net : Nat → List AttemptOutcome) :
    List Nat → Option PageContent → List TradeRecord
  | [], _ => []
  | p :: ps, resp =>
    let step := processPage p (net p) resp
    step.1 ++ scrapePages net ps step.2

/-- Model of `scrape_insider_trades(start_page, end_page)`: iterate
`range(start_page, end_page + 1)` with `response` initially unbound.  The
derived `*_parsed` date columns appended to the returned DataFrame add new
columns only and are not part of the record model. -/
def scrape_insider_trades (net : Nat → List AttemptOutcome) (start_page end_page : Nat) :
    List TradeRecord :=
  scrapePages net (List.range' start_page (end_page + 1 - start_page)) none

/-! ## Analysis (`score.py`)

The scraped DataFrame is embedded as its column-name list (the schema that
`analyze_insider_opportunities` checks) together with typed rows carrying
the fields the analysis reads.  `NaN`/`NaT` is `none`.  Dates are integers
(days); `datetime.now() - timedelta(days=30)` becomes the explicit
`cutoff` parameter.  Pandas group keys are enumerated in first-occurrence
order and sorts are insertion sorts on the stated key: every claim about
these tables is membership-only, and both choices are permutations of the
pandas orders. -/

/-- One row of the analysis input table. -/
structure ARow where
  company : Option String
  operation : Option String
  author : Option String
  quantity : Option Int
  price_eur : Option MyRat
  total_value_eur : Option MyRat
  operation_date_parsed : Option Int
deriving DecidableEq

/-- The analysis input: schema plus rows.  Rows always carry every field
the scraper emits; a column outside the checked six being absent from a
DataFrame that nonetheless reaches the aggregations is outside the model. -/
structure ADF where
  cols : List String
  rows : List ARow
deriving DecidableEq

/-- The required-column list of line 20. -/
def required_cols : List String :=
  ["company", "operation", "author", "quantity", "price_eur", "total_value_eur"]

/-- The missing-column computation of line 21. -/
def missingCols (df : ADF) : List String :=
  required_cols.filter (fun c => !(df.cols.contains c))

/-- The message of the `ValueError` raised at line 23, naming the missing
columns. -/
def missingColsMsg (df : ADF) : String :=
  "Missing required columns: " ++ String.intercalate ", " (missingCols df)

/-- The `dropna` of line 26: keep rows where `company`, `operation`,
`quantity` and `price_eur` are all non-null. -/
def dfClean (df : ADF) : List ARow :=
  df.rows.filter (fun r =>
    r.company.isSome && r.operation.isSome && r.quantity.isSome && r.price_eur.isSome)

/-- The `is_buy` flag of lines 29-30: the lowercased operation contains
one of the buy keywords. -/
def isBuy (r : ARow) : Bool :=
  match r.operation with
  | some op =>
    let l := asciiLower op
    containsSub "acquisition" l || containsSub "achat" l || containsSub "souscription" l
  | none => false

/-- The `is_sell` flag of line 31. -/
def isSell (r : ARow) : Bool :=
  match r.operation with
  | some op =>
    let l := asciiLower op
    containsSub "cession" l || containsSub "vente" l
  | none => false

/-- Sum of a rational list (a pandas `sum` over the non-null values). -/
def sumQ (l : List MyRat) : MyRat :=
  l.foldl (fun a b => a + b) 0

/-- Pandas `min` over non-null values: `NaT` on an empty group. -/
def minInt? (l : List Int) : Option Int :=
  l.foldl (fun a b => match a with | none => some b | some m => some (min m b)) none

/-- Pandas `max` over non-null values: `NaT` on an empty group. -/
def maxInt? (l : List Int) : Option Int :=
  l.foldl (fun a b => match a with | none => some b | some m => some (max m b)) none

/-- Group keys of a pandas groupby on the company column over the given rows:
the distinct non-null companies. -/
def companyKeys (rows : List ARow) : List String :=
  (rows.filterMap (fun r => r.company)).dedup

/-- One row of the `cluster_stats` table (lines 72-86), after the column
flattening. -/
structure ClusterRow where
  company : String
  unique_buyers : Nat
  total_value : MyRat
  avg_value : Option MyRat
  num_trades : Nat
  first_trade : Option Int
  last_trade : Option Int
  recent_activity : Bool
deriving DecidableEq

/-- The group of buy rows of one company. -/
def companyGroup (buys : List ARow) (c : String) : List ARow :=
  buys.filter (fun r => r.company == some c)

/-- The aggregation of lines 72-79 for one company, plus the
recent-activity flag of line 86 (`NaT >= cutoff` is false). -/
def clusterRowFor (cutoff : Int) (buys : List ARow) (c : String) : ClusterRow :=
  let g := companyGroup buys c
  let tvs := g.filterMap (fun r => r.total_value_eur)
  let dates := g.filterMap (fun r => r.operation_date_parsed)
  let last := maxInt? dates
  { company := c
    unique_buyers := ((g.filterMap (fun r => r.author)).dedup).length
    total_value := sumQ tvs
    avg_value := if tvs.length = 0 then none else some (sumQ tvs / (tvs.length : MyRat))
    num_trades := tvs.length
    first_trade := minInt? dates
    last_trade := last
    recent_activity := match last with | some d => cutoff ≤ d | none => false }

/-- Model of `find_cluster_buying` (lines 65-88): group the buy rows by company,
aggregate, keep companies with at least two distinct buyers, sort by total
value. -/
def find_cluster_buying (cutoff : Int) (dfc : List ARow) : List ClusterRow :=
  let buys := dfc.filter isBuy
  let stats := (companyKeys buys).map (clusterRowFor cutoff buys)
  sortBy (fun a b => decide (b.total_value ≤ a.total_value))
    (stats.filter (fun cr => 2 ≤ cr.unique_buyers))

/-- Pandas linear-interpolation `quantile(q)` over the non-null values of
a column: `NaN` (none) on an empty list. -/
def quantileQ (q : MyRat) (l : List MyRat) : Option MyRat :=
  match sortBy (fun a b => decide (a ≤ b)) l with
  | [] => none
  | s =>
    let n := s.length
    let pos : MyRat := ((n - 1 : Nat) : MyRat) * q
    let i := pos.floorNat
    let lo := s.getD i 0
    let hi := s.getD (i + 1) lo
    some (lo + (hi - lo) * (pos - (i : MyRat)))

/-- One row of the `large_purchases` table (lines 90-105): the selected
columns plus the percentile rank. -/
structure LargeRow where
  company : Option String
  author : Option String
  total_value_eur : Option MyRat
  quantity : Option Int
  price_eur : Option MyRat
  operation_date_parsed : Option Int
  value_percentile : Option MyRat
deriving DecidableEq

/-- Average-rank percentile (`rank(pct=True) * 100`) of a value among the
non-null values of the column. -/
def rankPct (vals : List MyRat) (v : MyRat) : MyRat :=
  let below := (vals.filter (fun w => w < v)).length
  let eq := (vals.filter (fun w => w == v)).length
  (((below : MyRat) + ((eq : MyRat) + 1) / 2) / (vals.length : MyRat)) * 100

/-- Model of `find_large_purchases` (lines 90-105): buys whose total value reaches
the 90th percentile, sorted descending, with their percentile ranks.
A row with a null total value never passes the `>=` comparison. -/
def find_large_purchases (dfc : List ARow) : List LargeRow :=
  let buys := dfc.filter isBuy
  let tvs := buys.filterMap (fun r => r.total_value_eur)
  let threshold := quantileQ (9 / 10) tvs
  let large := buys.filter (fun r =>
    match r.total_value_eur, threshold with
    | some v, some t => t ≤ v
    | _, _ => false)
  let largeTvs := large.filterMap (fun r => r.total_value_eur)
  let mk : ARow → LargeRow := fun r =>
    { company := r.company
      author := r.author
      total_value_eur := r.total_value_eur
      quantity := r.quantity
      price_eur := r.price_eur
      operation_date_parsed := r.operation_date_parsed
      value_percentile := r.total_value_eur.map (rankPct largeTvs) }
  ((sortBy (fun a b =>
    match a.total_value_eur, b.total_value_eur with
    | some x, some y => decide (y ≤ x)
    | some _, none => true
    | none, _ => false) large).map mk)

/-- The executive keyword list of lines 111-114. -/
def executive_keywords : List String :=
  ["pdg", "ceo", "president", "directeur general", "directeur général",
   "administrateur", "conseil", "gerant", "gérant"]

/-- The executive flag of lines 119-121: some keyword occurs in the
lowercased author (`na=False` on a null author). -/
def isExecutive (r : ARow) : Bool :=
  match r.author with
  | some a => executive_keywords.any (fun k => containsSub k (asciiLower a))
  | none => false

/-- One row of the `exec_summary` table (lines 126-133). -/
structure ExecRow where
  company : String
  total_exec_value : MyRat
  num_exec_trades : Nat
  executives : List String
  last_trade : Option Int
deriving DecidableEq

/-- The aggregation of lines 126-132 for one company of the executive
buys (`list(set(x))` keeps the distinct authors). -/
def execRowFor (buys : List ARow) (c : String) : ExecRow :=
  let g := companyGroup buys c
  let tvs := g.filterMap (fun r => r.total_value_eur)
  { company := c
    total_exec_value := sumQ tvs
    num_exec_trades := tvs.length
    executives := (g.filterMap (fun r => r.author)).dedup
    last_trade := maxInt? (g.filterMap (fun r => r.operation_date_parsed)) }

/-- Model of `find_executive_buying` (lines 107-135). -/
def find_executive_buying (dfc : List ARow) : List ExecRow :=
  let execBuys := (dfc.filter isBuy).filter isExecutive
  sortBy (fun a b => decide (b.total_exec_value ≤ a.total_exec_value))
    ((companyKeys execBuys).map (execRowFor execBuys))

/-- One row of the `recent_summary` table (lines 150-157). -/
structure RecentRow where
  company : String
  recent_buy_value : MyRat
  recent_buyers : Nat
  total_shares : Int
  latest_trade : Option Int
deriving DecidableEq

/-- Model of `find_recent_activity` (lines 137-160): buys dated on or after the
cutoff (a null date never passes), grouped by company. -/
def find_recent_activity (cutoff : Int) (dfc : List ARow) : List RecentRow :=
  let recent := dfc.filter (fun r =>
    isBuy r && match r.operation_date_parsed with
               | some d => cutoff ≤ d
               | none => false)
  let mk : String → RecentRow := fun c =>
    let g := companyGroup recent c
    { company := c
      recent_buy_value := sumQ (g.filterMap (fun r => r.total_value_eur))
      recent_buyers := ((g.filterMap (fun r => r.author)).dedup).length
      total_shares := (g.filterMap (fun r => r.quantity)).foldl (fun a b => a + b) 0
      latest_trade := maxInt? (g.filterMap (fun r => r.operation_date_parsed)) }
  sortBy (fun a b => decide (b.recent_buy_value ≤ a.recent_buy_value)) ((companyKeys recent).map mk)

/-- One row of the buy/sell ratio table (lines 162-183).  `buy_ratio` is
`none` where pandas produces `NaN` (a zero total). -/
structure RatioRow where
  company : String
  buy_value : MyRat
  sell_value : MyRat
  total_value : MyRat
  buy_ratio : Option MyRat
  net_buying : MyRat
deriving DecidableEq

/-- Model of `calculate_buy_sell_ratios` (lines 162-183): per-company buy and sell
value sums aligned with `fillna(0)`, the ratio columns, and the two
filters (median total value, ratio at least 0.7). -/
def calculate_buy_sell_ratios (dfc : List ARow) : List RatioRow :=
  let buys := dfc.filter isBuy
  let sells := dfc.filter isSell
  let keys := (companyKeys buys ++ companyKeys sells).dedup
  let mk : String → RatioRow := fun c =>
    let b := sumQ ((companyGroup buys c).filterMap (fun r => r.total_value_eur))
    let s := sumQ ((companyGroup sells c).filterMap (fun r => r.total_value_eur))
    let t := b + s
    { company := c
      buy_value := b
      sell_value := s
      total_value := t
      buy_ratio := if t = 0 then none else some (b / t)
      net_buying := b - s }
  let ratio := keys.map mk
  let medTotal := quantileQ (1 / 2) (ratio.map (fun r => r.total_value))
  let significant := ratio.filter (fun r =>
    match medTotal with
    | some m => m ≤ r.total_value
    | none => false)
  let strong := significant.filter (fun r =>
    match r.buy_ratio with
    | some q => (7 : MyRat) / 10 ≤ q
    | none => false)
  sortBy (fun a b => decide (b.net_buying ≤ a.net_buying)) strong

/-- One row of the `repeat_analysis` table (lines 185-205).  The span and
consistency columns are `none` where a `NaT` date makes them `NaN`. -/
structure RepeatRow where
  company : String
  author : String
  total_invested : MyRat
  num_purchases : Nat
  first_purchase : Option Int
  last_purchase : Option Int
  days_span : Option Int
  consistency_score : Option MyRat
deriving DecidableEq

/-- Model of `find_repeated_buyers` (lines 185-205): group the buys by the
(company, author) pair - pandas drops null keys - and keep pairs with at
least two counted purchases. -/
def find_repeated_buyers (dfc : List ARow) : List RepeatRow :=
  let buys := dfc.filter isBuy
  let keys := (buys.filterMap (fun r =>
    match r.company, r.author with
    | some c, some a => some (c, a)
    | _, _ => none)).dedup
  let mk : String × String → RepeatRow := fun p =>
    let g := buys.filter (fun r => r.company == some p.1 && r.author == some p.2)
    let tvs := g.filterMap (fun r => r.total_value_eur)
    let dates := g.filterMap (fun r => r.operation_date_parsed)
    let first := minInt? dates
    let last := maxInt? dates
    let span : Option Int :=
      match first, last with
      | some f, some l => some (l - f)
      | _, _ => none
    { company := p.1
      author := p.2
      total_invested := sumQ tvs
      num_purchases := tvs.length
      first_purchase := first
      last_purchase := last
      days_span := span
      consistency_score := span.map (fun d => (tvs.length : MyRat) / ((d : MyRat) + 1) * 100) }
  let repeated := (keys.map mk).filter (fun r => 2 ≤ r.num_purchases)
  sortBy (fun a b =>
    if a.total_invested = b.total_invested then
      match b.consistency_score, a.consistency_score with
      | some x, some y => decide (x ≤ y)
      | none, _ => true
      | some _, none => false
    else decide (b.total_invested ≤ a.total_invested)) repeated

/-- The `sector_trends` dictionary of lines 207-225: the ten top companies
by insider buy value and the summary sentence. -/
structure SectorTrends where
  top_companies_by_insider_buying : List (String × MyRat × Nat)
  summary : String
deriving DecidableEq

/-- Model of `analyze_sector_trends` (lines 207-225). -/
def analyze_sector_trends (dfc : List ARow) : SectorTrends :=
  let buys := dfc.filter isBuy
  let mk : String → String × MyRat × Nat := fun c =>
    let g := companyGroup buys c
    (c, sumQ (g.filterMap (fun r => r.total_value_eur)),
      ((g.filterMap (fun r => r.author)).dedup).length)
  let acts := sortBy (fun a b => decide (b.2.1 ≤ a.2.1)) ((companyKeys buys).map mk)
  { top_companies_by_insider_buying := acts.take 10
    summary := "Top " ++ toString acts.length ++ " companies with insider buying activity" }

/-- One recommendation row of lines 227-275. -/
structure RecommendationRow where
  company : String
  opportunity_score : MyRat
  reasons : String
deriving DecidableEq

/-- Score update over an ordered association list, the model of the
`defaultdict` of line 233 (first touch fixes the company position). -/
def bumpScore (acc : List (String × MyRat × List String)) (c : String) (pts : MyRat)
    (reason : String) : List (String × MyRat × List String) :=
  match acc with
  | [] => [(c, pts, [reason])]
  | e :: rest =>
    if e.1 = c then (e.1, e.2.1 + pts, e.2.2 ++ [reason]) :: rest
    else e :: bumpScore rest c pts reason

/-- Model of `generate_recommendations` (lines 227-275): the four scoring passes
over the heads of the earlier tables, then the score-sorted rows. -/
def generate_recommendations (clusters : List ClusterRow) (execs : List ExecRow)
    (recents : List RecentRow) (ratios : List RatioRow) : List RecommendationRow :=
  let s0 : List (String × MyRat × List String) := []
  let s1 := (clusters.take 10).foldl (fun acc row =>
    bumpScore acc row.company ((row.unique_buyers : MyRat) * 2)
      (toString row.unique_buyers ++ " different insiders buying")) s0
  let s2 := (execs.take 10).foldl (fun acc row =>
    bumpScore acc row.company 3 "Executive-level buying") s1
  let s3 := (recents.take 10).foldl (fun acc row =>
    bumpScore acc row.company 2 "Recent buying activity") s2
  let s4 := (ratios.take 10).foldl (fun acc row =>
    bumpScore acc row.company ((row.buy_ratio.getD 0) * 2) "Strong buy ratio") s3
  let rows := s4.map (fun e =>
    { company := e.1, opportunity_score := e.2.1,
      reasons := String.intercalate "; " e.2.2 : RecommendationRow })
  sortBy (fun a b => decide (b.opportunity_score ≤ a.opportunity_score)) rows

/-- The dictionary of derived tables that `analyze_insider_opportunities`
returns (lines 37-63). -/
structure Analyses where
  cluster_buying : List ClusterRow
  large_purchases : List LargeRow
  executive_buying : List ExecRow
  recent_activity : List RecentRow
  buy_sell_ratio : List RatioRow
  repeated_buyers : List RepeatRow
  sector_trends : SectorTrends
  recommendations : List RecommendationRow
deriving DecidableEq

/-- The analyses built from the cleaned rows. -/
def mkAnalyses (cutoff : Int) (df : ADF) : Analyses :=
  let dfc := dfClean df
  let clusters := find_cluster_buying cutoff dfc
  let execs := find_executive_buying dfc
  let recents := find_recent_activity cutoff dfc
  let ratios := calculate_buy_sell_ratios dfc
  { cluster_buying := clusters
    large_purchases := find_large_purchases dfc
    executive_buying := execs
    recent_activity := recents
    buy_sell_ratio := ratios
    repeated_buyers := find_repeated_buyers dfc
    sector_trends := analyze_sector_trends dfc
    recommendations := generate_recommendations clusters execs recents ratios }

/-- Model of `analyze_insider_opportunities` (lines 8-63): the required-column gate
of lines 19-23, then cleaning and the eight derived tables.  A raised
`ValueError` is the `Except.error` case. -/
def analyze_insider_opportunities (cutoff : Int) (df : ADF) : Except String Analyses :=
  if missingCols df = [] then Except.ok (mkAnalyses cutoff df)
  else Except.error (missingColsMsg df)

/-! ## Visualization effects (`vizualisation.py`)

Both chart builders assign
`pd.to_datetime` onto the date column of the
DataFrame object handed in by the caller (line 66 and line 225), with no
`copy()`.  The embedding keeps only what the claims are about: the state
of the callers collection before and after the call.  Figure construction
reads other columns but never writes them. -/

/-- A pandas cell as the chart code distinguishes it: null (`NaN`/`NaT`),
a string, an already-parsed datetime, or a number. -/
inductive PCell where
  | vnull
  | vstr (s : String)
  | vdate (s : String)
  | vnum (q : MyRat)
deriving DecidableEq

/-- Model of `pd.to_datetime` on one cell: strings are parsed into datetimes (the
canonical form is carried abstractly), datetimes are unchanged, nulls stay
`NaT`; the numeric epoch coercion is carried abstractly too. -/
def toDatetime : PCell → PCell
  | .vnull => .vnull
  | .vstr s => .vdate s
  | .vdate s => .vdate s
  | .vnum q => .vdate q.render

/-- One row of the DataFrame a chart function receives, restricted to the
columns the two functions touch or require. -/
structure VRow where
  operation_date_parsed : PCell
  operation : PCell
  quantity : PCell
  price_eur : PCell
  total_value_eur : PCell
  author : PCell
deriving DecidableEq

/-- The chart input: schema plus rows. -/
structure VDF where
  cols : List String
  rows : List VRow
deriving DecidableEq

/-- The required-column list of line 60. -/
def vizRequiredCols : List String :=
  ["operation_date_parsed", "operation", "quantity", "price_eur", "total_value_eur", "author"]

/-- The in-place column assignment of lines 66 and 225: every rows
`operation_date_parsed` is overwritten with its `to_datetime` conversion,
in the callers DataFrame. -/
def convertDates (df : VDF) : VDF :=
  { df with rows := df.rows.map (fun r =>
      { r with operation_date_parsed := toDatetime r.operation_date_parsed }) }

/-- Net effect of `create_insider_trading_chart` on the DataFrame passed
in (lines 59-66): the column check of lines 60-63 runs first and raises
before any mutation; otherwise line 66 converts the date column in place.
The returned figure is not modelled. -/
def create_insider_trading_chart_df (df : VDF) : Except String VDF :=
  let missing := vizRequiredCols.filter (fun c => !(df.cols.contains c))
  if missing = [] then Except.ok (convertDates df)
  else Except.error ("Missing required columns in insider_df: " ++ String.intercalate ", " missing)

/-- Net effect of `create_insider_summary_chart` on the DataFrame passed
in (line 225): the date column is converted in place unconditionally. -/
def create_insider_summary_chart_df (df : VDF) : VDF :=
  convertDates df

/-! ## Ticker helpers (`ticker.py`)

The market-data provider is a parameter giving each ticker its close
series.  CPython keyword-argument binding is made explicit: a call whose
keyword names are not all among the callees parameters raises `TypeError`
before the callee body runs. -/

/-- The provider: daily closes per ticker, oldest first. -/
structure Market where
  closes : String → List MyRat

/-- The parameter list of `get_daily_prices` (lines 74-77): `ticker` and
`days` only; the docstring advertises `include_volume` but the signature
does not accept it. -/
def get_daily_prices_params : List String :=
  ["ticker", "days"]

/-- CPython binding check for a call with the given keyword-argument
names against a parameter list without `**kwargs`. -/
def kwargsAccepted (params : List String) (kwargNames : List String) : Bool :=
  kwargNames.all (fun k => params.contains k)

/-- Model of the `get_daily_prices` body (lines 89-93): a date-windowed history fetch,
one provider retrieval. -/
def get_daily_prices (m : Market) (ticker : String) : List MyRat :=
  m.closes ticker

/-- The statistics dictionary `get_price_change` documents (lines 186-193). -/
structure PriceChangeStats where
  ticker : String
  current_price : MyRat
  start_price : MyRat
  price_change : MyRat
  price_change_pct : MyRat
  days_analyzed : Nat
deriving DecidableEq

/-- Model of `get_price_change` (lines 161-193).  Line 175 calls
`get_daily_prices(ticker, days=days, include_volume=False)`: the keyword
names are bound before the callee body runs, so a rejected binding raises
`TypeError` with zero provider retrievals.  The second component counts
retrievals performed. -/
def get_price_change (m : Market) (ticker : String) (days : Nat) :
    Except String PriceChangeStats × Nat :=
  if kwargsAccepted get_daily_prices_params ["days", "include_volume"] then
    let hist := get_daily_prices m ticker
    match hist with
    | [] => (Except.error ("No data available for " ++ ticker), 1)
    | h :: t =>
      let cur := (h :: t).getLast (by simp)
      let st := h
      (Except.ok
        { ticker := ticker
          current_price := cur
          start_price := st
          price_change := cur - st
          price_change_pct := (cur - st) / st * 100
          days_analyzed := days }, 1)
  else
    (Except.error
      "TypeError: get_daily_prices() got an unexpected keyword argument include_volume", 0)

/-! ## Concrete fixtures

Small concrete pages and tables used to witness the general theorems and
to exhibit counterexamples.  `fooSummary`/`fooDetail` is the end-to-end
scenario of the specification (company "Foo", author "Jean Dupont",
quantity 1000, price 12.50). -/

/-- A well-formed summary row for company "Foo". -/
def fooSummary : Row :=
  { classes := []
    cells := [{ text := "Foo", link := some { text := "Foo", href := "/foo" } },
              { text := "01/07/2025" }, { text := "Acquisition" },
              { text := "Actions" }, { text := "12 500,00 €" }, { text := "" }] }

/-- The detail row paired with `fooSummary`. -/
def fooDetail : Row :=
  { classes := ["dtlinsider"]
    nested := some [["Auteur: Jean Dupont"],
                    ["Date d\x27opération: 30/06/2025", "Quantité: 1 000", "Prix: 12,50 €"],
                    ["Commentaires: "]] }

/-- The record the pair extracts to, for an arbitrary page number. -/
def fooRecordAt (page : Nat) : TradeRecord :=
  mkRecord page fooSummary (parseDetail fooDetail)

/-- The record of the scenario on page 1. -/
def fooRecord : TradeRecord :=
  fooRecordAt 1

/-- A summary row whose company anchor exists but has empty text. -/
def emptyLinkRow : Row :=
  { classes := []
    cells := [{ text := "", link := some { text := "", href := "/x" } },
              { text := "01/07/2025" }, { text := "Acquisition" },
              { text := "Actions" }, { text := "100,00 €" }, { text := "" }] }

/-- Page rows for the empty-company-text scenario. -/
def c3rows : List Row :=
  [emptyLinkRow, fooDetail]

/-- The candidate the empty-company-text scenario extracts. -/
def c3candidate : TradeRecord :=
  mkRecord 1 emptyLinkRow (parseDetail fooDetail)

/-- A detail row declaring a zero quantity and a non-null price. -/
def zeroQtyDetail : Row :=
  { classes := ["dtlinsider"]
    nested := some [["Auteur: Jean Dupont"],
                    ["Quantité: 0", "Prix: 12,50 €"]] }

/-- Page rows for the zero-quantity scenario. -/
def c4rows : List Row :=
  [fooSummary, zeroQtyDetail]

/-- The record of the zero-quantity scenario. -/
def c4record : TradeRecord :=
  mkRecord 1 fooSummary (parseDetail zeroQtyDetail)

/-- A detail row whose quantity text does not parse. -/
def badQtyDetail : Row :=
  { classes := ["dtlinsider"]
    nested := some [["Auteur: Jean Dupont"],
                    ["Quantité: n.c.", "Prix: 12,50 €"]] }

/-- Page rows for the failed-quantity-parse scenario. -/
def c8rows : List Row :=
  [fooSummary, badQtyDetail]

/-- The record of the failed-quantity-parse scenario. -/
def c8record : TradeRecord :=
  mkRecord 1 fooSummary (parseDetail badQtyDetail)

/-- The parsed content of the page holding the "Foo" pair. -/
def fooPageContent : PageContent :=
  { table := some [fooSummary, fooDetail] }

/-- A network where page 1 succeeds at once and every other page fails all
three attempts with transport errors. -/
def c1net : Nat → List AttemptOutcome :=
  fun p =>
    if p = 1 then [.ok fooPageContent, .transportError, .transportError]
    else [.transportError, .transportError, .transportError]

/-- An analysis row: a buy of company "X" by "Alice". -/
def aRow1 : ARow :=
  { company := some "X"
    operation := some "Acquisition"
    author := some "Alice"
    quantity := some 100
    price_eur := some 10
    total_value_eur := some 1000
    operation_date_parsed := some 20270 }

/-- An analysis row: a buy of company "X" by "Bob". -/
def aRow2 : ARow :=
  { aRow1 with
    author := some "Bob"
    quantity := some 50
    price_eur := some 12
    total_value_eur := some 600 }

/-- An input table with the full scraper schema and the two "X" buys. -/
def fullADF : ADF :=
  { cols := required_cols ++ ["operation_date_parsed"], rows := [aRow1, aRow2] }

/-- An input table missing three of the required columns. -/
def missingADF : ADF :=
  { cols := ["company", "operation", "author"], rows := [] }

/-- A chart-input row whose date column is still an unparsed string. -/
def vRowStr : VRow :=
  { operation_date_parsed := .vstr "01/07/2025"
    operation := .vstr "Acquisition"
    quantity := .vnum 100
    price_eur := .vnum 10
    total_value_eur := .vnum 1000
    author := .vstr "Alice" }

/-- A chart input carrying `vRowStr`. -/
def vdfStr : VDF :=
  { cols := vizRequiredCols, rows := [vRowStr] }

/-- A chart input whose date column is already datetime-typed. -/
def vdfParsed : VDF :=
  { cols := vizRequiredCols,
    rows := [{ vRowStr with operation_date_parsed := .vdate "2025-07-01" }] }

/-! ## Step lemmas for the extractor cursor -/

/-- Empty row list: no records. -/
theorem extractRows_nil (page : Nat) : extractRows page [] = [] := rfl

/-- A detail-classed row at the cursor is skipped. -/
theorem extractRows_skip_detail (page : Nat) (row : Row) (rest : List Row)
    (h : "dtlinsider" ∈ row.classes) :
    extractRows page (row :: rest) = extractRows page rest := by
  cases rest with
  | nil => simp [extractRows, h]
  | cons next rest2 => simp [extractRows, h]

/-- A row with fewer than 6 cells is skipped. -/
theorem extractRows_skip_short (page : Nat) (row : Row) (rest : List Row)
    (h1 : "dtlinsider" ∉ row.classes) (h2 : row.cells.length < 6) :
    extractRows page (row :: rest) = extractRows page rest := by
  cases rest with
  | nil => simp [extractRows, h1, h2]
  | cons next rest2 => simp [extractRows, h1, h2]

/-- A summary row followed by a detail-classed row: the pair is consumed
together and the cursor advances by two. -/
theorem extractRows_pair (page : Nat) (row next : Row) (rest2 : List Row)
    (h1 : "dtlinsider" ∉ row.classes) (h2 : ¬row.cells.length < 6)
    (h3 : "dtlinsider" ∈ next.classes) :
    extractRows page (row :: next :: rest2)
      = mkRecord page row (parseDetail next) :: extractRows page rest2 := by
  simp [extractRows, h1, h2, h3]

/-- A summary row whose successor is not detail-classed: a detail-less
record, cursor advance of one. -/
theorem extractRows_nopair (page : Nat) (row next : Row) (rest2 : List Row)
    (h1 : "dtlinsider" ∉ row.classes) (h2 : ¬row.cells.length < 6)
    (h3 : "dtlinsider" ∉ next.classes) :
    extractRows page (row :: next :: rest2)
      = mkRecord page row {} :: extractRows page (next :: rest2) := by
  simp [extractRows, h1, h2, h3]

/-- A summary row at the end of the table: a detail-less record. -/
theorem extractRows_last (page : Nat) (row : Row)
    (h1 : "dtlinsider" ∉ row.classes) (h2 : ¬row.cells.length < 6) :
    extractRows page [row] = [mkRecord page row {}] := by
  simp [extractRows, h1, h2]

/-- Every candidate record is the assembly of some row and detail
dictionary on the requested page. -/
theorem mem_extractRows {page : Nat} :
    (rows : List Row) → ∀ r ∈ extractRows page rows, ∃ row d, r = mkRecord page row d
  | [] => by simp [extractRows]
  | [row] => by
    intro r hr
    by_cases h1 : "dtlinsider" ∈ row.classes
    · simp [extractRows, h1] at hr
    · by_cases h2 : row.cells.length < 6
      · simp [extractRows, h1, h2] at hr
      · rw [extractRows_last page row h1 h2, List.mem_singleton] at hr
        exact ⟨row, {}, hr⟩
  | row :: next :: rest2 => by
    intro r hr
    by_cases h1 : "dtlinsider" ∈ row.classes
    · rw [extractRows_skip_detail page row _ h1] at hr
      exact mem_extractRows (next :: rest2) r hr
    · by_cases h2 : row.cells.length < 6
      · rw [extractRows_skip_short page row _ h1 h2] at hr
        exact mem_extractRows (next :: rest2) r hr
      · by_cases h3 : "dtlinsider" ∈ next.classes
        · rw [extractRows_pair page row next rest2 h1 h2 h3, List.mem_cons] at hr
          rcases hr with rfl | hr
          · exact ⟨row, parseDetail next, rfl⟩
          · exact mem_extractRows rest2 r hr
        · rw [extractRows_nopair page row next rest2 h1 h2 h3, List.mem_cons] at hr
          rcases hr with rfl | hr
          · exact ⟨row, {}, rfl⟩
          · exact mem_extractRows (next :: rest2) r hr

/-- Projections of the assembled record (definitional). -/
theorem mkRecord_author (page : Nat) (row : Row) (d : DetailInfo) :
    (mkRecord page row d).author = d.author := rfl

theorem mkRecord_operation_date (page : Nat) (row : Row) (d : DetailInfo) :
    (mkRecord page row d).operation_date = d.operation_date := rfl

theorem mkRecord_quantity (page : Nat) (row : Row) (d : DetailInfo) :
    (mkRecord page row d).quantity = d.quantity := rfl

theorem mkRecord_price (page : Nat) (row : Row) (d : DetailInfo) :
    (mkRecord page row d).price_eur = d.price_eur := rfl

theorem mkRecord_comments (page : Nat) (row : Row) (d : DetailInfo) :
    (mkRecord page row d).comments = d.comments := rfl

theorem mkRecord_total (page : Nat) (row : Row) (d : DetailInfo) :
    (mkRecord page row d).total_value_eur = totalValue d := rfl

/-- A detail-less candidate always fails the retention guard: its author
is null. -/
theorem keepRecord_no_detail (page : Nat) (row : Row) :
    keepRecord (mkRecord page row {}) = false := by
  simp [keepRecord, mkRecord_author, truthyStr]

/-- The retention guard in terms of the record fields: it passes exactly
for a non-null, non-empty company and author. -/
theorem keepRecord_iff (r : TradeRecord) :
    keepRecord r = true ↔
      (∃ c, r.company = some c ∧ c ≠ "") ∧ (∃ a, r.author = some a ∧ a ≠ "") := by
  unfold keepRecord
  rcases hc : r.company with _ | c <;> rcases ha : r.author with _ | a <;>
    simp [truthyStr, hc, ha]

/-- Claim C2 (corrected).  A summary row not followed by a detail row
yields exactly one candidate record, with every detail-sourced field
(author, operation date, quantity, price, comments) null, and the cursor
advances by exactly one row; but because that candidates author is null,
the retention guard drops it, so the final output for the page is
unchanged by the row - no record for it appears in the output. -/
theorem claim_C2 (page : Nat) (row : Row) (rest : List Row)
    (h1 : "dtlinsider" ∉ row.classes) (h2 : 6 ≤ row.cells.length)
    (h3 : ∀ next ∈ rest.head?, "dtlinsider" ∉ next.classes) :
    extractRows page (row :: rest) = mkRecord page row {} :: extractRows page rest
    ∧ (mkRecord page row ({} : DetailInfo)).author = none
    ∧ (mkRecord page row ({} : DetailInfo)).operation_date = none
    ∧ (mkRecord page row ({} : DetailInfo)).quantity = none
    ∧ (mkRecord page row ({} : DetailInfo)).price_eur = none
    ∧ (mkRecord page row ({} : DetailInfo)).comments = none
    ∧ pageRecords page (row :: rest) = pageRecords page rest := by
  have h2' : ¬row.cells.length < 6 := by omega
  have hstep : extractRows page (row :: rest) = mkRecord page row {} :: extractRows page rest := by
    cases rest with
    | nil => rw [extractRows_last page row h1 h2', extractRows_nil]
    | cons next rest2 =>
      have hn : "dtlinsider" ∉ next.classes := h3 next (by simp)
      exact extractRows_nopair page row next rest2 h1 h2' hn
  refine ⟨hstep, rfl, rfl, rfl, rfl, rfl, ?_⟩
  simp [pageRecords, hstep, List.filter_cons, keepRecord_no_detail]

/-- Witness for claim C2 at the concrete one-row page. -/
theorem claim_C2_witness :
    extractRows 1 [fooSummary] = [mkRecord 1 fooSummary {}]
    ∧ pageRecords 1 [fooSummary] = pageRecords 1 [] := by
  have h := claim_C2 1 fooSummary [] (by decide) (by decide) (by simp)
  exact ⟨by rw [h.1, extractRows_nil], h.2.2.2.2.2.2⟩

/-- Counterexample to claim C2 as stated: the lone summary row produces a
candidate (the cursor consumed it), yet the final output holds zero
records for it, not one. -/
theorem claim_C2_counterexample :
    (extractRows 1 [fooSummary]).length = 1 ∧ pageRecords 1 [fooSummary] = [] := by
  decide

/-- Claim C3 (corrected).  A candidate reaches the final output if and
only if its company and author are non-null **and non-empty**: the guard
is Python truthiness, so an empty string is discarded exactly like a null. -/
theorem claim_C3 (page : Nat) (rows : List Row) (r : TradeRecord) :
    r ∈ pageRecords page rows ↔
      r ∈ extractRows page rows
        ∧ (∃ c, r.company = some c ∧ c ≠ "")
        ∧ (∃ a, r.author = some a ∧ a ≠ "") := by
  unfold pageRecords
  rw [List.mem_filter, keepRecord_iff]

/-- Witness for claim C3 at a concrete page: the "Foo" record with a
failed quantity parse satisfies both truthiness conditions and is in the
output. -/
theorem claim_C3_witness :
    c8record ∈ pageRecords 1 c8rows :=
  (claim_C3 1 c8rows c8record).mpr
    ⟨by decide, ⟨"Foo", by decide, by decide⟩, ⟨"Jean Dupont", by decide, by decide⟩⟩

/-- Counterexample to claim C3 as stated: a candidate whose company is the
non-null empty string (the anchor exists with empty text) and whose author
is non-null is nonetheless discarded from the output. -/
theorem claim_C3_counterexample :
    extractRows 1 c3rows = [c3candidate]
    ∧ c3candidate.company = some ""
    ∧ c3candidate.author = some "Jean Dupont"
    ∧ pageRecords 1 c3rows = [] := by
  decide

/-- Claim C4 (corrected).  For every extracted candidate,
`total_value_eur = quantity * price_eur` whenever both are non-null **and
nonzero**; it is null whenever either is null **or zero** (the guard is
Python truthiness of the two values), and it is never independently
supplied: whenever it is present it is that product. -/
theorem claim_C4 (page : Nat) (rows : List Row) (r : TradeRecord)
    (hr : r ∈ extractRows page rows) :
    (∀ q p, r.quantity = some q → r.price_eur = some p → q ≠ 0 → p ≠ 0 →
        r.total_value_eur = some ((q : MyRat) * p))
    ∧ (r.total_value_eur ≠ none →
        ∃ q p, r.quantity = some q ∧ r.price_eur = some p ∧ q ≠ 0 ∧ p ≠ 0
          ∧ r.total_value_eur = some ((q : MyRat) * p))
    ∧ ((r.quantity = none ∨ r.price_eur = none ∨ r.quantity = some 0 ∨ r.price_eur = some 0) →
        r.total_value_eur = none) := by
  obtain ⟨row, d, rfl⟩ := mem_extractRows rows r hr
  simp only [mkRecord_quantity, mkRecord_price, mkRecord_total]
  unfold totalValue
  rcases hq : d.quantity with _ | q <;> rcases hp : d.price_eur with _ | p <;> simp
  by_cases h0 : q = 0
  · subst h0
    simp
  by_cases h1 : p = 0
  · subst h1
    simp
  simp [h0, h1]

/-- Witness for claim C4 at the "Foo" pair: quantity 1000 and price 12.50
give a present total of 12500. -/
theorem claim_C4_witness :
    fooRecord.total_value_eur = some ((1000 : MyRat) * 12.5) :=
  (claim_C4 1 [fooSummary, fooDetail] fooRecord (by decide)).1 1000 12.5
    (by decide) (by decide) (by decide) (by decide)

/-- Counterexample to claim C4 as stated: a record with quantity 0 and a
non-null price has both fields non-null, yet its total value is null. -/
theorem claim_C4_counterexample :
    extractRows 1 c4rows = [c4record]
    ∧ c4record.quantity = some 0
    ∧ c4record.price_eur = some 12.5
    ∧ c4record.total_value_eur = none := by
  decide

/-- Claim C5 (confirmed).  A summary row immediately followed by a
detail-classed row is consumed together with it: exactly one candidate
record is produced for the pair, its detail-sourced fields coming from the
detail rows nested table and its summary fields from the summary rows
cells, and the cursor advances by exactly two rows. -/
theorem claim_C5 (page : Nat) (row next : Row) (rest2 : List Row)
    (h1 : "dtlinsider" ∉ row.classes) (h2 : 6 ≤ row.cells.length)
    (h3 : "dtlinsider" ∈ next.classes) :
    extractRows page (row :: next :: rest2)
      = mkRecord page row (parseDetail next) :: extractRows page rest2
    ∧ (mkRecord page row (parseDetail next)).author = (parseDetail next).author
    ∧ (mkRecord page row (parseDetail next)).operation_date = (parseDetail next).operation_date
    ∧ (mkRecord page row (parseDetail next)).quantity = (parseDetail next).quantity
    ∧ (mkRecord page row (parseDetail next)).price_eur = (parseDetail next).price_eur
    ∧ (mkRecord page row (parseDetail next)).comments = (parseDetail next).comments
    ∧ (mkRecord page row (parseDetail next)).company
        = (row.cells.getD 0 { text := "" }).link.map (fun l => l.text)
    ∧ (mkRecord page row (parseDetail next)).declaration_date
        = (row.cells.getD 1 { text := "" }).text
    ∧ (mkRecord page row (parseDetail next)).operation = (row.cells.getD 2 { text := "" }).text
    ∧ (mkRecord page row (parseDetail next)).scraped_page = page := by
  have h2' : ¬row.cells.length < 6 := by omega
  exact ⟨extractRows_pair page row next rest2 h1 h2' h3,
    rfl, rfl, rfl, rfl, rfl, rfl, rfl, rfl, rfl⟩

/-- Witness for claim C5 at the "Foo" pair, matching the end-to-end
scenario of the specification: one record with quantity 1000, price 12.5
and total 12500. -/
theorem claim_C5_witness :
    extractRows 1 [fooSummary, fooDetail] = [fooRecord]
    ∧ fooRecord.quantity = some 1000
    ∧ fooRecord.price_eur = some 12.5
    ∧ fooRecord.total_value_eur = some 12500
    ∧ fooRecord.author = some "Jean Dupont" := by
  have h := claim_C5 1 fooSummary fooDetail [] (by decide) (by decide) (by decide)
  exact ⟨by rw [h.1]; rfl, by decide, by decide, by decide, by decide⟩

/-- Claim C8 (confirmed).  The headline-amount parser maps
`"1 234,56 €"` to 1234.56 and `"abc"` to null without raising; and a
candidate whose mandatory fields are present (non-null, non-empty company
and author) is retained in the output whatever its value fields hold, so a
failed value parse only nulls the specific field. -/
theorem claim_C8 :
    parseAmount "1 234,56 €" = some 1234.56
    ∧ parseAmount "abc" = none
    ∧ ∀ (page : Nat) (rows : List Row) (r : TradeRecord), r ∈ extractRows page rows →
        (∃ c, r.company = some c ∧ c ≠ "") → (∃ a, r.author = some a ∧ a ≠ "") →
        r ∈ pageRecords page rows := by
  refine ⟨by decide, by decide, ?_⟩
  intro page rows r hr hc ha
  unfold pageRecords
  rw [List.mem_filter, keepRecord_iff]
  exact ⟨hr, hc, ha⟩

/-- Witness for claim C8: a detail row whose quantity text does not parse
yields a record with a null quantity that is still retained. -/
theorem claim_C8_witness :
    c8record ∈ pageRecords 1 c8rows
    ∧ c8record.quantity = none
    ∧ c8record.price_eur = some 12.5 := by
  refine ⟨claim_C8.2.2 1 c8rows c8record (by decide) ⟨"Foo", by decide, by decide⟩
    ⟨"Jean Dupont", by decide, by decide⟩, by decide, by decide⟩

/-- Claim C1 (code bug).  The spec says a page whose three fetch attempts
all fail yields zero records and is skipped.  In the code the `continue`
on the last attempt only ends the retry `for`, and control falls through
to parse the stale `response` of the previous page: here page 2 fails all
three attempts yet re-emits page 1s record labelled `scraped_page = 2`.
The parts of the claim the code does honour are also evaluated: two
2-unit waits happen between the three failed attempts, the failed fetch
sets no success flag, and when the failed page is the first (no stale
response exists) the `NameError` is absorbed and the run yields zero
records without raising. -/
theorem claim_C1 :
    scrape_insider_trades c1net 1 2 = [fooRecordAt 1, fooRecordAt 2]
    ∧ (fooRecordAt 2).scraped_page = 2
    ∧ (fooRecordAt 2).company = some "Foo"
    ∧ (fooRecordAt 2).author = (fooRecordAt 1).author
    ∧ (runAttempts (c1net 2) (some fooPageContent)).2.2 = [2, 2]
    ∧ (runAttempts (c1net 2) (some fooPageContent)).2.1 = false
    ∧ scrape_insider_trades c1net 2 2 = [] := by
  decide

/-- Membership is invariant under the insertion step. -/
theorem mem_insertBy {α : Type} (le : α → α → Bool) (x : α) (l : List α) (a : α) :
    a ∈ insertBy le x l ↔ a = x ∨ a ∈ l := by
  induction l with
  | nil => simp [insertBy]
  | cons y ys ih =>
    by_cases h : le x y
    · simp [insertBy, h]
    · simp [insertBy, h, ih]
      tauto

/-- Membership is invariant under the insertion sort. -/
theorem mem_sortBy {α : Type} (le : α → α → Bool) (l : List α) (a : α) :
    a ∈ sortBy le l ↔ a ∈ l := by
  induction l with
  | nil => simp [sortBy]
  | cons x xs ih => simp [sortBy, mem_insertBy, ih]

/-- Claim C6 (confirmed).  The analysis entry point raises the descriptive
`ValueError` naming the missing columns exactly when at least one of the
six required columns is absent from the input schema; with all six present
it returns the record of named derived tables and raises nothing. -/
theorem claim_C6 (cutoff : Int) (df : ADF) :
    (missingCols df ≠ [] ↔
      analyze_insider_opportunities cutoff df = Except.error (missingColsMsg df))
    ∧ (missingCols df = [] →
      analyze_insider_opportunities cutoff df = Except.ok (mkAnalyses cutoff df))
    ∧ (missingCols df = [] ↔ ∀ c ∈ required_cols, c ∈ df.cols) := by
  refine ⟨?_, ?_, ?_⟩
  · by_cases h : missingCols df = []
    · constructor
      · intro hne
        exact absurd h hne
      · intro heq
        unfold analyze_insider_opportunities at heq
        rw [if_pos h] at heq
        exact Except.noConfusion heq
    · constructor
      · intro _
        unfold analyze_insider_opportunities
        rw [if_neg h]
      · intro _
        exact h
  · intro h
    unfold analyze_insider_opportunities
    rw [if_pos h]
  · unfold missingCols
    rw [List.filter_eq_nil_iff]
    constructor
    · intro h c hc
      have := h c hc
      simp only [Bool.not_eq_true'] at this
      simpa [List.elem_iff] using this
    · intro h c hc
      simp [List.elem_iff, h c hc]

/-- Witness for claim C6: the full-schema table passes the gate and the
three-column table is rejected with the message naming the missing three. -/
theorem claim_C6_witness :
    analyze_insider_opportunities 0 fullADF = Except.ok (mkAnalyses 0 fullADF)
    ∧ analyze_insider_opportunities 0 missingADF = Except.error (missingColsMsg missingADF)
    ∧ missingColsMsg missingADF
        = "Missing required columns: quantity, price_eur, total_value_eur" := by
  refine ⟨(claim_C6 0 fullADF).2.1 (by decide),
    ((claim_C6 0 missingADF).1).mp (by decide), by decide⟩

/-- Claim C7 (confirmed).  When the cleaned buy rows of a company are
exactly two records by two distinct (non-null) authors, the company
appears in the cluster-buying table with `unique_buyers = 2`. -/
theorem claim_C7 (cutoff : Int) (df : ADF) (x a1 a2 : String) (r1 r2 : ARow)
    (hcols : missingCols df = [])
    (hgrp : companyGroup ((dfClean df).filter isBuy) x = [r1, r2])
    (ha1 : r1.author = some a1) (ha2 : r2.author = some a2) (hne : a1 ≠ a2) :
    ∃ t, analyze_insider_opportunities cutoff df = Except.ok t ∧
      ∃ cr ∈ t.cluster_buying, cr.company = x ∧ cr.unique_buyers = 2 := by
  have hok : analyze_insider_opportunities cutoff df = Except.ok (mkAnalyses cutoff df) := by
    unfold analyze_insider_opportunities
    rw [if_pos hcols]
  have huniq : (clusterRowFor cutoff ((dfClean df).filter isBuy) x).unique_buyers = 2 := by
    unfold clusterRowFor
    rw [hgrp]
    simp only [List.filterMap_cons, List.filterMap_nil, ha1, ha2]
    rw [List.dedup_cons_of_not_mem (by simp [hne]),
      List.dedup_cons_of_not_mem (by simp), List.dedup_nil]
    rfl
  have hr1mem : r1 ∈ companyGroup ((dfClean df).filter isBuy) x := by
    rw [hgrp]
    simp
  have hr1' := List.mem_filter.mp hr1mem
  have hr1c : r1.company = some x := by simpa using hr1'.2
  refine ⟨mkAnalyses cutoff df, hok,
    clusterRowFor cutoff ((dfClean df).filter isBuy) x, ?_, rfl, huniq⟩
  show clusterRowFor cutoff ((dfClean df).filter isBuy) x
    ∈ find_cluster_buying cutoff (dfClean df)
  unfold find_cluster_buying
  rw [mem_sortBy, List.mem_filter]
  refine ⟨List.mem_map_of_mem _ ?_, by simp [huniq]⟩
  unfold companyKeys
  rw [List.mem_dedup, List.mem_filterMap]
  exact ⟨r1, hr1'.1, hr1c⟩

/-- Witness for claim C7 at the two-buy table for company "X". -/
theorem claim_C7_witness :
    ∃ t, analyze_insider_opportunities 0 fullADF = Except.ok t ∧
      ∃ cr ∈ t.cluster_buying, cr.company = "X" ∧ cr.unique_buyers = 2 :=
  claim_C7 0 fullADF "X" "Alice" "Bob" aRow1 aRow2 (by decide) (by decide)
    (by decide) (by decide) (by decide)

/-- Claim C9 (corrected).  Both chart builders mutate the DataFrame they
receive: the `operation_date_parsed` column is overwritten in place with
its `to_datetime` conversion.  Every other column is left unchanged, the
row count is preserved, and a collection whose date column is already
datetime-typed (or null) is left exactly as received; the trading chart
performs its column check first and, when it does not raise, applies the
same conversion as the summary chart. -/
theorem claim_C9 (df : VDF) :
    (create_insider_summary_chart_df df).cols = df.cols
    ∧ (create_insider_summary_chart_df df).rows.map (fun r =>
        (r.operation, r.quantity, r.price_eur, r.total_value_eur, r.author))
      = df.rows.map (fun r => (r.operation, r.quantity, r.price_eur, r.total_value_eur, r.author))
    ∧ (create_insider_summary_chart_df df).rows.map (fun r => r.operation_date_parsed)
      = df.rows.map (fun r => toDatetime r.operation_date_parsed)
    ∧ ((∀ r ∈ df.rows, toDatetime r.operation_date_parsed = r.operation_date_parsed) →
        create_insider_summary_chart_df df = df)
    ∧ (∀ out, create_insider_trading_chart_df df = Except.ok out →
        out = create_insider_summary_chart_df df) := by
  refine ⟨rfl, ?_, ?_, ?_, ?_⟩
  · simp [create_insider_summary_chart_df, convertDates]
  · simp [create_insider_summary_chart_df, convertDates]
  · intro h
    unfold create_insider_summary_chart_df convertDates
    cases df with
    | mk cols rows =>
      simp only [VDF.mk.injEq, true_and]
      induction rows with
      | nil => rfl
      | cons r rs ih =>
        simp only [List.map_cons, List.cons.injEq]
        constructor
        · have hr := h r (by simp)
          cases r
          simp_all
        · exact ih (fun r hr => h r (by simp [hr]))
  · intro out hout
    unfold create_insider_trading_chart_df at hout
    by_cases h : vizRequiredCols.filter (fun c => !(df.cols.contains c)) = []
    · rw [if_pos h] at hout
      exact (Except.ok.injEq _ _).mp hout |>.symm ▸ rfl
    · rw [if_neg h] at hout
      exact Except.noConfusion hout

/-- Witness for claim C9: a collection whose date column is already parsed
is returned exactly as received. -/
theorem claim_C9_witness :
    create_insider_summary_chart_df vdfParsed = vdfParsed :=
  (claim_C9 vdfParsed).2.2.2.1 (by decide)

/-- Counterexample to claim C9 as stated: a consumer does not leave the
record collection unchanged - handing the summary chart a collection whose
date column holds strings returns a changed collection, and the trading
chart applies the same in-place conversion. -/
theorem claim_C9_counterexample :
    create_insider_summary_chart_df vdfStr ≠ vdfStr
    ∧ create_insider_trading_chart_df vdfStr = Except.ok (convertDates vdfStr)
    ∧ convertDates vdfStr ≠ vdfStr := by
  refine ⟨by decide, rfl, by decide⟩

/-- Claim C10 (confirmed).  For every ticker and day count,
`get_price_change` hits the `TypeError` from binding the `include_volume`
keyword that `get_daily_prices` does not accept, before any provider
retrieval happens (zero retrievals), and never returns the documented
statistics dictionary. -/
theorem claim_C10 (m : Market) (ticker : String) (days : Nat) :
    "include_volume" ∉ get_daily_prices_params
    ∧ kwargsAccepted get_daily_prices_params ["days", "include_volume"] = false
    ∧ (get_price_change m ticker days).1 =
        Except.error "TypeError: get_daily_prices() got an unexpected keyword argument include_volume"
    ∧ (get_price_change m ticker days).2 = 0
    ∧ ∀ stats, (get_price_change m ticker days).1 ≠ Except.ok stats := by
  refine ⟨by decide, by decide, rfl, rfl, ?_⟩
  intro stats h
  rw [show (get_price_change m ticker days).1 =
      Except.error "TypeError: get_daily_prices() got an unexpected keyword argument include_volume"
    from rfl] at h
  exact Except.noConfusion h

/-- Witness for claim C10 at a concrete ticker, day count and provider. -/
theorem claim_C10_witness :
    (get_price_change ⟨fun _ => []⟩ "AIR.PA" 30).1 =
      Except.error "TypeError: get_daily_prices() got an unexpected keyword argument include_volume"
    ∧ (get_price_change ⟨fun _ => []⟩ "AIR.PA" 30).2 = 0 :=
  ⟨(claim_C10 ⟨fun _ => []⟩ "AIR.PA" 30).2.2.1,
    (claim_C10 ⟨fun _ => []⟩ "AIR.PA" 30).2.2.2.1⟩

end FranceInsider

